import Mathlib

/-!
# Job synchronization client: shallow embedding

This file embeds the client-side job-synchronization logic of the
web-content-assistant frontend:

* the `Project` record and the partial-update merge performed in the
  WebSocket `status_update` handler of the project-detail page
  (`setProject(prev => ({...prev, status: d.status || prev.status, ...}))`);
* the full message dispatch of that handler (`status_update`, `error`,
  `completion`, parse failure);
* `loadProject` (authoritative full refetch via `getProject`);
* the run/cancel gating (`canRun`, `canCancel`) and `handleRunProject`;
* the Dashboard pull loop (`setInterval(fetchProjects, 10000)`) and
  `fetchProjects` from the project context;
* the WebSocket keepalive loop (`setInterval(send ping, 30000)`).

JavaScript `x || y` is modelled by explicit falsiness tests: a string is
falsy iff empty, a number is falsy iff `0` (`NaN` not modelled), and an
absent (`undefined`/`null`) field is falsy; optional message fields are
`Option`s with `none` for absent.  Numbers are modelled as `ℚ`.
-/

/-- One record of `artifacts.iteration_metrics` as consumed by the
project-detail page. -/
structure IterationMetric where
  iteration : Nat
  issues_fixed : Nat
  issues_remaining : Nat
  validation_results : List (String × String)
deriving DecidableEq, Repr

/-- The `artifacts` bundle attached to a project once output exists
(architecture summary, file map, validation results, iteration metrics). -/
structure Artifacts where
  architecture : List (String × String)
  code_files : List (String × String)
  validation_results : List (String × String)
  iteration_metrics : List IterationMetric
deriving DecidableEq, Repr

/-- The `Project` entity held by the client (`src/types`): identifier,
label, requirements text, lifecycle status, progress percentage, optional
active-stage label, accumulated errors, optional artifacts, timestamps.
There is no `generation` field in the client data model. -/
structure Project where
  project_id : String
  name : String
  requirements : String
  status : String
  completion_percentage : ℚ
  current_node : Option String
  errors : List String
  artifacts : Option Artifacts
  created_at : String
  updated_at : String
deriving DecidableEq, Repr

/-- Payload of a `status_update` push frame: any subset of
`status`, `completion_percentage`, `current_node` (`none` = absent). -/
structure StatusUpdateData where
  status : Option String
  completion_percentage : Option ℚ
  current_node : Option String
deriving DecidableEq, Repr

/-- JavaScript truthiness of a possibly-absent string: an absent value and
the empty string are falsy. -/
def jsTruthyStr : Option String → Bool
  | none => false
  | some s => s ≠ ""

/-- JavaScript truthiness of a possibly-absent number: an absent value and
`0` are falsy (`NaN` is not modelled). -/
def jsTruthyNum : Option ℚ → Bool
  | none => false
  | some q => q ≠ 0

/-- The merge executed by the `status_update` branch of the WebSocket
handler:
`{...prev, status: d.status || prev.status,
  completion_percentage: d.completion_percentage || prev.completion_percentage,
  current_node: d.current_node || prev.current_node}`. -/
def applyStatusUpdate (prev : Project) (d : StatusUpdateData) : Project :=
  { prev with
    status := if jsTruthyStr d.status then d.status.getD prev.status else prev.status
    completion_percentage :=
      if jsTruthyNum d.completion_percentage then
        d.completion_percentage.getD prev.completion_percentage
      else prev.completion_percentage
    current_node := if jsTruthyStr d.current_node then d.current_node else prev.current_node }

/-- Typed WebSocket frames understood by the project-detail handler; a
frame with any other `type` string falls through every branch. -/
inductive WsMessage
  | status_update (d : StatusUpdateData)
  | error (msg : Option String)
  | completion
  | other (t : String)
deriving DecidableEq, Repr

/-- Observable side effects the handlers request (toasts, the authoritative
refetch `loadProject()`, and the parse-failure log). -/
inductive Effect
  | toastError
  | toastSuccess
  | toastInfo
  | toastWarning
  | reloadProject
  | logParseError
deriving DecidableEq, Repr

/-- Local state of the project-detail page relevant to synchronization:
the held `project` snapshot, the `isRunning` flag, `loading` and `error`. -/
structure DetailState where
  project : Option Project
  isRunning : Bool
  loading : Bool
  error : Option String
deriving DecidableEq, Repr

/-- Dispatch of one parsed WebSocket message, as in `ws.current.onmessage`:
`status_update` merges into the held project and adjusts `isRunning`
(scheduling a refetch on a terminal status), `error` raises a toast,
`completion` raises a toast and schedules exactly one refetch; an unknown
type is ignored. -/
def handleMessage (st : DetailState) : WsMessage → DetailState × List Effect
  | .status_update d =>
    let st' := { st with project := st.project.map (fun p => applyStatusUpdate p d) }
    if d.status = some "running" then
      ({ st' with isRunning := true }, [])
    else if d.status = some "completed" ∨ d.status = some "failed" ∨
        d.status = some "cancelled" then
      ({ st' with isRunning := false }, [Effect.reloadProject])
    else
      (st', [])
  | .error _ => (st, [Effect.toastError])
  | .completion => (st, [Effect.toastSuccess, Effect.reloadProject])
  | .other _ => (st, [])

/-- The full `onmessage` handler: the frame is parsed inside a `try`; an
unparseable payload (`none`) only logs and changes nothing. -/
def onmessage (st : DetailState) : Option WsMessage → DetailState × List Effect
  | none => (st, [Effect.logParseError])
  | some m => handleMessage st m

/-- Outcome of the `getProject` request issued by `loadProject`. -/
inductive FetchResult
  | ok (p : Project)
  | notFound
  | failed
deriving DecidableEq, Repr

/-- `loadProject`: on success the fetched project replaces the snapshot
wholesale and `isRunning` is recomputed from its status; a missing project
or a failed request sets `error` and leaves the snapshot untouched;
`loading` is cleared in every case. -/
def loadProject (st : DetailState) : FetchResult → DetailState
  | .ok p =>
    { st with
      project := some p
      isRunning := p.status == "running"
      loading := false
      error := none }
  | .notFound =>
    { st with error := some "Project not found", loading := false }
  | .failed =>
    { st with error := some "Failed to load project", loading := false }

/-- The run gate of the project-detail page:
`['created', 'failed', 'cancelled', 'completed'].includes(project.status)`. -/
def canRun (status : String) : Bool :=
  ["created", "failed", "cancelled", "completed"].contains status

/-- The cancel gate: `project.status === 'running'`. -/
def canCancel (status : String) : Bool :=
  status == "running"

/-- The download gate:
`['completed', 'partially_completed'].includes(project.status)`. -/
def canDownload (status : String) : Bool :=
  ["completed", "partially_completed"].contains status

/-- `handleRunProject`: `runProject` resolves to a success flag; on success
only the `isRunning` flag is set and an info toast raised, on failure an
error toast is raised; the held project snapshot is never touched. -/
def handleRunProject (st : DetailState) (success : Bool) : DetailState × List Effect :=
  if success then ({ st with isRunning := true }, [Effect.toastInfo])
  else (st, [Effect.toastError])

/-! ## Pull channel: Dashboard polling over `fetchProjects`

The Dashboard registers `setInterval(() => fetchProjects(), 10000)` and
clears it only in the effect cleanup.  `fetchProjects` sets `loading`,
clears `error`, awaits `GET /api/projects`, replaces `projects` on success
or records the error string on failure, and finally clears `loading`.
Nothing in the tick consults whether a previous request is still
outstanding; `inFlight` counts requests issued but not yet resolved. -/

/-- The Dashboard poll period in milliseconds (`setInterval(..., 10000)`). -/
def pollIntervalMs : Nat := 10000

/-- State of the project-list pull loop: held `projects` snapshot, the
context `loading`/`error` flags, the number of issued-but-unresolved
requests, and whether the interval is still registered. -/
structure PullState where
  projects : List Project
  loading : Bool
  error : Option String
  inFlight : Nat
  intervalActive : Bool
deriving DecidableEq, Repr

/-- The synchronous prefix of `fetchProjects()`: `setLoading(true)`,
`setError(null)`, and the request is issued. -/
def fetchStart (s : PullState) : PullState :=
  { s with loading := true, error := none, inFlight := s.inFlight + 1 }

/-- One interval tick of the Dashboard: while the interval is registered it
invokes `fetchProjects()` unconditionally — there is no in-flight guard. -/
def pollTick (s : PullState) : PullState :=
  if s.intervalActive then fetchStart s else s

/-- Resolution of one outstanding `fetchProjects` request with a successful
response: `setProjects(response.data.projects)`, then the `finally` clears
`loading`. -/
def fetchSuccess (s : PullState) (ps : List Project) : PullState :=
  { s with projects := ps, loading := false, inFlight := s.inFlight - 1 }

/-- Resolution of one outstanding `fetchProjects` request with a failure:
the `catch` records the error string, the `finally` clears `loading`; the
held `projects` snapshot is not touched and the interval stays registered. -/
def fetchFailure (s : PullState) : PullState :=
  { s with
    error := some "Failed to fetch projects"
    loading := false
    inFlight := s.inFlight - 1 }

/-- The effect cleanup (`clearInterval`), the only thing that stops the
poll. -/
def pollCleanup (s : PullState) : PullState :=
  { s with intervalActive := false }

/-! ## Push channel keepalive

The project-detail effect registers
`setInterval(() => { if (ws.current.readyState === OPEN) send(ping) }, 30000)`
and, in its cleanup, clears the interval and closes the socket.  No code
path measures silence: the socket's state changes only via the server
closing it or the cleanup.  `msSinceTraffic` tracks elapsed time with no
incoming traffic purely as an observer. -/

/-- The keepalive period in milliseconds (`setInterval(..., 30000)`). -/
def pingIntervalMs : Nat := 30000

/-- WebSocket readyState as used by the keepalive guard
(`WebSocket.CONNECTING/OPEN/CLOSING/CLOSED`). -/
inductive WsReadyState
  | CONNECTING
  | OPEN
  | CLOSING
  | CLOSED
deriving DecidableEq, Repr

/-- Observable state of the push connection: its readyState, the number of
ping probes sent, and the time elapsed since the last observed traffic. -/
structure WsState where
  readyState : WsReadyState
  sentPings : Nat
  msSinceTraffic : Nat
deriving DecidableEq, Repr

/-- Events that drive the push connection in the source: the 30s keepalive
tick, an incoming frame, mere passage of time without traffic, the server
closing the socket, and the unmount cleanup. -/
inductive WsEvent
  | pingTick
  | frameArrived
  | elapse (ms : Nat)
  | serverClose
  | unmountCleanup
deriving DecidableEq, Repr

/-- One step of the push connection as implemented: the keepalive tick
sends a ping only while the socket is open; nothing in the client closes
the socket in response to silence — only `unmountCleanup` (which calls
`ws.close()`) and a server-side close change `readyState`. -/
def wsStep (s : WsState) : WsEvent → WsState
  | .pingTick =>
    if s.readyState = .OPEN then { s with sentPings := s.sentPings + 1 } else s
  | .frameArrived => { s with msSinceTraffic := 0 }
  | .elapse ms => { s with msSinceTraffic := s.msSinceTraffic + ms }
  | .serverClose => { s with readyState := .CLOSED }
  | .unmountCleanup => { s with readyState := .CLOSED }

/-- Run the push connection over a sequence of events. -/
def wsRun (s : WsState) (evs : List WsEvent) : WsState :=
  evs.foldl wsStep s

/-- Start permission as the amended claim words it: exactly the four
statuses the source's run gate lists — `partially_completed` excluded. -/
def specStartPermitted (status : String) : Prop :=
  status = "created" ∨ status = "failed" ∨ status = "cancelled" ∨ status = "completed"

/-! ## Concrete fixtures -/

/-- A job mid-run at 65 percent (the Scenario B shape). -/
def projAt65 : Project :=
  { project_id := "p1"
    name := "App"
    requirements := "Build a todo app"
    status := "running"
    completion_percentage := 65
    current_node := some "codegen"
    errors := []
    artifacts := none
    created_at := "t0"
    updated_at := "t1" }

/-- A partial update carrying only a regressed progress value of 10. -/
def update10 : StatusUpdateData :=
  { status := none, completion_percentage := some 10, current_node := none }

/-- A failed job that retains artifacts and 80 percent progress. -/
def failedProj : Project :=
  { project_id := "p2"
    name := "App2"
    requirements := "Build a blog"
    status := "failed"
    completion_percentage := 80
    current_node := none
    errors := ["boom"]
    artifacts := some
      { architecture := [("summary", "three tiers")]
        code_files := [("main.py", "print(1)")]
        validation_results := []
        iteration_metrics := [] }
    created_at := "t0"
    updated_at := "t2" }

/-- Detail-page state holding the failed job. -/
def failedState : DetailState :=
  { project := some failedProj, isRunning := false, loading := false, error := none }

/-- A partial update carrying only `status: "running"` (a restart seen from
the push channel). -/
def updateRunning : StatusUpdateData :=
  { status := some "running", completion_percentage := none, current_node := none }

/-- A wholly falsy partial update: empty status, zero progress, empty stage. -/
def updateFalsy : StatusUpdateData :=
  { status := some "", completion_percentage := some 0, current_node := some "" }

/-- Initial pull-loop state with the interval registered. -/
def pullInit : PullState :=
  { projects := [], loading := false, error := none, inFlight := 0, intervalActive := true }

/-- An open push connection that has seen no traffic for 61 seconds —
beyond twice the 30-second heartbeat interval. -/
def staleOpen : WsState :=
  { readyState := .OPEN, sentPings := 3, msSinceTraffic := 61000 }

/-! ## Helper lemmas -/

/-- The status-update merge is idempotent field by field. -/
theorem applyStatusUpdate_idem (p : Project) (d : StatusUpdateData) :
    applyStatusUpdate (applyStatusUpdate p d) d = applyStatusUpdate p d := by
  unfold applyStatusUpdate
  rcases d with ⟨ds, dc, dn⟩
  rcases ds with _ | s <;> rcases dc with _ | q <;> rcases dn with _ | n <;>
    simp [jsTruthyStr, jsTruthyNum] <;> aesop

/-- No event other than a server close or the unmount cleanup changes the
connection's readyState. -/
theorem wsStep_readyState_eq (s : WsState) (e : WsEvent)
    (h1 : e ≠ WsEvent.serverClose) (h2 : e ≠ WsEvent.unmountCleanup) :
    (wsStep s e).readyState = s.readyState := by
  cases e with
  | pingTick =>
    by_cases h : s.readyState = .OPEN <;> simp [wsStep, h]
  | frameArrived => rfl
  | elapse ms => rfl
  | serverClose => exact absurd rfl h1
  | unmountCleanup => exact absurd rfl h2

/-- Over any event sequence free of closes, readyState is invariant. -/
theorem wsRun_readyState_eq (evs : List WsEvent) (s : WsState)
    (h1 : WsEvent.serverClose ∉ evs) (h2 : WsEvent.unmountCleanup ∉ evs) :
    (wsRun s evs).readyState = s.readyState := by
  induction evs generalizing s with
  | nil => rfl
  | cons e rest ih =>
    have he1 : e ≠ WsEvent.serverClose := fun h => h1 (h ▸ List.mem_cons_self e rest)
    have he2 : e ≠ WsEvent.unmountCleanup := fun h => h2 (h ▸ List.mem_cons_self e rest)
    have hr1 : WsEvent.serverClose ∉ rest := fun h => h1 (List.mem_cons_of_mem e h)
    have hr2 : WsEvent.unmountCleanup ∉ rest := fun h => h2 (List.mem_cons_of_mem e h)
    calc (wsRun (wsStep s e) rest).readyState
        = (wsStep s e).readyState := ih (wsStep s e) hr1 hr2
      _ = s.readyState := wsStep_readyState_eq s e he1 he2

/-- A tick of an active poll loop is exactly the synchronous prefix of
`fetchProjects`. -/
theorem pollTick_active (s : PullState) (h : s.intervalActive = true) :
    pollTick s = fetchStart s := by
  simp [pollTick, h]

/-- `fetchStart` keeps the interval registered. -/
theorem fetchStart_intervalActive (s : PullState) :
    (fetchStart s).intervalActive = s.intervalActive := rfl

/-! ## Claims -/

/-- C1, counterexample: the claim says a partial update whose
`completionPercentage` is lower than the current value (with no generation
increment) is rejected, leaving the Job unchanged.  The code has no
generation mechanism and no monotonicity guard: merging
`{completion_percentage: 10}` into a job at 65 applies the regression, so
the merged Job differs from the pre-update Job. -/
theorem c1_counterexample :
    update10.completion_percentage = some 10 ∧
    projAt65.completion_percentage = 65 ∧
    (applyStatusUpdate projAt65 update10).completion_percentage = 10 ∧
    applyStatusUpdate projAt65 update10 ≠ projAt65 := by
  refine ⟨rfl, rfl, ?_, fun h => ?_⟩
  · norm_num [applyStatusUpdate, update10, projAt65, jsTruthyNum]
  · have h65 := congrArg Project.completion_percentage h
    norm_num [applyStatusUpdate, update10, projAt65, jsTruthyNum] at h65

/-- C1, amended: a partial update's carried nonzero `completionPercentage`
is always applied, even when lower than the current value — the merge
performs no ordering check and the data model has no generation counter. -/
theorem c1_theorem (p : Project) (d : StatusUpdateData) (q : ℚ)
    (hq : d.completion_percentage = some q) (hnz : q ≠ 0) :
    (applyStatusUpdate p d).completion_percentage = q := by
  simp [applyStatusUpdate, jsTruthyNum, hq, hnz]

/-- C1, witness: the amended rule evaluated on the 65-to-10 regression. -/
theorem c1_theorem_witness :
    (applyStatusUpdate projAt65 update10).completion_percentage = 10 :=
  c1_theorem projAt65 update10 10 rfl (by norm_num)

/-- C2, counterexample: the claim says restarting a terminal job resets
`completionPercentage` to 0, clears `artifacts`, and bumps a generation
counter.  On a failed job holding artifacts at 80 percent, a successful
start leaves the held Job completely unchanged, and a push update to
`running` keeps the 80 percent and the artifacts; no generation field
exists to bump. -/
theorem c2_counterexample :
    failedState.project = some failedProj ∧
    failedProj.status = "failed" ∧
    (handleRunProject failedState true).1.project = some failedProj ∧
    (applyStatusUpdate failedProj updateRunning).status = "running" ∧
    (applyStatusUpdate failedProj updateRunning).completion_percentage = 80 ∧
    (applyStatusUpdate failedProj updateRunning).artifacts = failedProj.artifacts ∧
    failedProj.artifacts ≠ none := by
  refine ⟨rfl, rfl, rfl, ?_, ?_, ?_, ?_⟩ <;> decide

/-- C2, amended: no transition performs a field reset: the start handler
never touches the held Job, and the push merge never touches `artifacts`
or `errors` and leaves `completionPercentage` unchanged when the update
does not carry one. -/
theorem c2_theorem (st : DetailState) (b : Bool) (p : Project) (d : StatusUpdateData) :
    (handleRunProject st b).1.project = st.project ∧
    (applyStatusUpdate p d).artifacts = p.artifacts ∧
    (applyStatusUpdate p d).errors = p.errors ∧
    (d.completion_percentage = none →
      (applyStatusUpdate p d).completion_percentage = p.completion_percentage) := by
  refine ⟨?_, rfl, rfl, ?_⟩
  · cases b <;> rfl
  · intro h
    simp [applyStatusUpdate, h, jsTruthyNum]

/-- C2, witness: the amended rule evaluated on the failed job and the
restart update. -/
theorem c2_theorem_witness :
    (handleRunProject failedState true).1.project = failedState.project ∧
    (applyStatusUpdate failedProj updateRunning).artifacts = failedProj.artifacts ∧
    (applyStatusUpdate failedProj updateRunning).errors = failedProj.errors ∧
    (applyStatusUpdate failedProj updateRunning).completion_percentage =
      failedProj.completion_percentage :=
  have h := c2_theorem failedState true failedProj updateRunning
  ⟨h.1, h.2.1, h.2.2.1, h.2.2.2 rfl⟩

/-- C3, counterexample: the claim says start is permitted for
`partially_completed`.  The run gate omits it (while the download gate
recognises it as a real status), so a partially-completed job cannot be
started. -/
theorem c3_counterexample :
    canRun "partially_completed" = false ∧
    canDownload "partially_completed" = true := by
  refine ⟨?_, ?_⟩ <;> decide

/-- C3, amended: start is permitted exactly when the status is one of
`created`, `failed`, `cancelled`, `completed` (`partially_completed`
excluded), and a start whose request fails leaves the page state — in
particular the held Job — unchanged. -/
theorem c3_theorem (s : String) (st : DetailState) :
    (canRun s = true ↔ specStartPermitted s) ∧
    (handleRunProject st false).1 = st := by
  refine ⟨?_, rfl⟩
  simp [canRun, specStartPermitted, List.contains]

/-- C4, counterexample: the claim says a tick is skipped while a previous
fetch is outstanding, keeping at most one pull request in flight.  The
Dashboard tick calls `fetchProjects()` unconditionally: two consecutive
ticks with no resolution in between leave two requests in flight. -/
theorem c4_counterexample :
    pullInit.inFlight = 0 ∧
    (pollTick pullInit).inFlight = 1 ∧
    (pollTick (pollTick pullInit)).inFlight = 2 ∧
    ¬ (pollTick (pollTick pullInit)).inFlight ≤ 1 := by
  refine ⟨rfl, ?_, ?_, ?_⟩ <;> decide

/-- C4, amended: while the interval is registered, every tick issues a new
fetch with no in-flight guard, so `n` unresolved ticks leave `n` more
requests outstanding — the in-flight count is unbounded. -/
theorem c4_theorem (s : PullState) (n : Nat) (h : s.intervalActive = true) :
    pollTick s = fetchStart s ∧ (pollTick^[n] s).inFlight = s.inFlight + n := by
  refine ⟨pollTick_active s h, ?_⟩
  induction n generalizing s with
  | zero => simp
  | succ n ih =>
    rw [Function.iterate_succ_apply, pollTick_active s h,
      ih (fetchStart s) ((fetchStart_intervalActive s).trans h)]
    simp [fetchStart]
    omega

/-- C4, witness: two back-to-back ticks from the fresh active loop. -/
theorem c4_theorem_witness :
    pollTick pullInit = fetchStart pullInit ∧
    (pollTick^[2] pullInit).inFlight = pullInit.inFlight + 2 :=
  c4_theorem pullInit 2 rfl

/-- C5: on a `completion` frame the handler mutates no Job field and
requests exactly one authoritative refetch; the refetch then replaces the
held snapshot wholesale with the fetched Job (terminal fields and
artifacts arrive only through it). -/
theorem c5_theorem (st : DetailState) (p : Project) :
    (onmessage st (some WsMessage.completion)).1 = st ∧
    (onmessage st (some WsMessage.completion)).2.count Effect.reloadProject = 1 ∧
    (loadProject st (FetchResult.ok p)).project = some p ∧
    (loadProject st (FetchResult.ok p)).isRunning = (p.status == "running") := by
  refine ⟨rfl, rfl, rfl, rfl⟩

/-- C6: a failed pull tick records the transient error string, retains the
previous `projects` snapshot untouched, leaves the interval registered,
and the next active tick simply fetches again (the error is cleared at
that point) — no failure stops polling. -/
theorem c6_theorem (s : PullState) :
    (fetchFailure s).projects = s.projects ∧
    (fetchFailure s).error = some "Failed to fetch projects" ∧
    (fetchFailure s).intervalActive = s.intervalActive ∧
    (fetchStart s).error = none ∧
    (s.intervalActive = true → pollTick (fetchFailure s) = fetchStart (fetchFailure s)) := by
  refine ⟨rfl, rfl, rfl, rfl, fun h => pollTick_active _ ?_⟩
  simpa [fetchFailure] using h

/-- C6, witness: the failure path evaluated on the initial active pull
state. -/
theorem c6_theorem_witness :
    (fetchFailure pullInit).projects = pullInit.projects ∧
    (fetchFailure pullInit).error = some "Failed to fetch projects" ∧
    (fetchFailure pullInit).intervalActive = pullInit.intervalActive ∧
    (fetchStart pullInit).error = none ∧
    pollTick (fetchFailure pullInit) = fetchStart (fetchFailure pullInit) :=
  have h := c6_theorem pullInit
  ⟨h.1, h.2.1, h.2.2.1, h.2.2.2.1, h.2.2.2.2 rfl⟩

/-- C7: the merge is a pure function of the pair and idempotent — applying
the identical update twice yields the same Job as applying it once, both
at the level of the field merge and of the whole message handler's state. -/
theorem c7_theorem (p : Project) (d : StatusUpdateData) (st : DetailState) (m : WsMessage) :
    applyStatusUpdate (applyStatusUpdate p d) d = applyStatusUpdate p d ∧
    (handleMessage (handleMessage st m).1 m).1 = (handleMessage st m).1 := by
  refine ⟨applyStatusUpdate_idem p d, ?_⟩
  cases m with
  | status_update d' =>
    rcases hsp : st.project with _ | p0 <;>
      by_cases h1 : d'.status = some "running" <;>
      by_cases h2 : d'.status = some "completed" ∨ d'.status = some "failed" ∨
          d'.status = some "cancelled" <;>
      simp [handleMessage, h1, h2, hsp, applyStatusUpdate_idem]
  | error msg => rfl
  | completion => rfl
  | other t => rfl

/-- C8, counterexample: the claim says silence longer than twice the
30-second heartbeat interval forces the connection into Closed.  A
connection open and silent for 61 seconds stays open through further ticks
and further silence — the source has no staleness detection. -/
theorem c8_counterexample :
    2 * pingIntervalMs < staleOpen.msSinceTraffic ∧
    staleOpen.readyState = WsReadyState.OPEN ∧
    (wsStep staleOpen WsEvent.pingTick).readyState = WsReadyState.OPEN ∧
    (wsStep staleOpen (WsEvent.elapse 30000)).readyState = WsReadyState.OPEN := by
  refine ⟨?_, rfl, ?_, rfl⟩ <;> decide

/-- C8, amended: a ping is sent on each 30-second tick while the socket is
open, but no amount of traffic-free time changes `readyState`: over any
event sequence without a server close or the unmount cleanup, an open
connection stays open. -/
theorem c8_theorem (s : WsState) (evs : List WsEvent)
    (hopen : s.readyState = WsReadyState.OPEN)
    (h1 : WsEvent.serverClose ∉ evs) (h2 : WsEvent.unmountCleanup ∉ evs) :
    pingIntervalMs = 30000 ∧
    (wsStep s WsEvent.pingTick).sentPings = s.sentPings + 1 ∧
    (wsRun s evs).readyState = WsReadyState.OPEN := by
  refine ⟨rfl, ?_, ?_⟩
  · simp [wsStep, hopen]
  · rw [wsRun_readyState_eq evs s h1 h2, hopen]

/-- C8, witness: the stale connection driven through two further ticks and
100 further seconds of silence. -/
theorem c8_theorem_witness :
    pingIntervalMs = 30000 ∧
    (wsStep staleOpen WsEvent.pingTick).sentPings = staleOpen.sentPings + 1 ∧
    (wsRun staleOpen [WsEvent.pingTick, WsEvent.elapse 100000,
      WsEvent.pingTick]).readyState = WsReadyState.OPEN :=
  c8_theorem staleOpen [WsEvent.pingTick, WsEvent.elapse 100000, WsEvent.pingTick]
    rfl (by decide) (by decide)

/-- C9: an unparseable frame only logs: the handler returns the state
unchanged with the parse-failure log as its only effect, and every later
frame is handled exactly as it would have been without the bad frame. -/
theorem c9_theorem (st : DetailState) :
    onmessage st none = (st, [Effect.logParseError]) ∧
    ∀ f, onmessage (onmessage st none).1 f = onmessage st f :=
  ⟨rfl, fun _ => rfl⟩

/-- C10: JavaScript falsiness in the merge: a carried
`completion_percentage` of 0, an empty-string status and an empty-string
stage each leave the corresponding current field unchanged, and the merge
can never turn a nonzero `completionPercentage` into 0. -/
theorem c10_theorem (p : Project) (d : StatusUpdateData) :
    (d.completion_percentage = some 0 →
      (applyStatusUpdate p d).completion_percentage = p.completion_percentage) ∧
    (d.status = some "" → (applyStatusUpdate p d).status = p.status) ∧
    (d.current_node = some "" → (applyStatusUpdate p d).current_node = p.current_node) ∧
    (p.completion_percentage ≠ 0 → (applyStatusUpdate p d).completion_percentage ≠ 0) := by
  refine ⟨?_, ?_, ?_, ?_⟩
  · intro h
    simp [applyStatusUpdate, h, jsTruthyNum]
  · intro h
    simp [applyStatusUpdate, h, jsTruthyStr]
  · intro h
    simp [applyStatusUpdate, h, jsTruthyStr]
  · intro hp
    unfold applyStatusUpdate
    rcases hd : d.completion_percentage with _ | q
    · simp [jsTruthyNum, hd, hp]
    · by_cases hq : q = 0
      · simp [jsTruthyNum, hd, hq, hp]
      · simp [jsTruthyNum, hd, hq]

/-- C10, witness: the wholly falsy update leaves the running job at 65
exactly where it was. -/
theorem c10_theorem_witness :
    (applyStatusUpdate projAt65 updateFalsy).completion_percentage =
      projAt65.completion_percentage ∧
    (applyStatusUpdate projAt65 updateFalsy).status = projAt65.status ∧
    (applyStatusUpdate projAt65 updateFalsy).current_node = projAt65.current_node ∧
    (applyStatusUpdate projAt65 updateFalsy).completion_percentage ≠ 0 :=
  have h := c10_theorem projAt65 updateFalsy
  ⟨h.1 rfl, h.2.1 rfl, h.2.2.1 rfl, h.2.2.2 (by norm_num [projAt65])⟩
